import Mathlib

/-!
Shallow embedding of the keepalived BFD subsystem fragment:
src/keepalived/bfd/bfd_daemon.c, src/lib/utils.c and src/lib/utils.h.

Machine integers are modelled as Nat with explicit reductions modulo
2 ^ 32 or 256 where the C types (uint32_t, unsigned char, uint16_t)
truncate.  Byte memory is modelled as functions from Nat (the address)
to Nat (the byte stored there).  Fallible external calls (pipe2,
alloc_bfd_data, pidfile_write, get_config_status) are modelled by
passing their outcome in explicitly.
-/

namespace Keepalived

/-! Flag constants from the Linux fcntl headers (octal 04000 and
octal 02000000 on this platform). -/

def O_NONBLOCK : Nat := 2048

def O_CLOEXEC : Nat := 524288

/-- Descriptor pair returned by a successful pipe2 call, together with
the file status / descriptor flags both ends were opened with. -/
structure PipeEnds where
  readFd : Nat
  writeFd : Nat
  flags : Nat
  deriving DecidableEq, Repr

/-- Modelled from the spec: the kernel pipe2 system call (not part of
this repository).  On success both returned descriptors carry exactly
the flags that were requested; on failure nothing is created.  The
success or failure outcome is passed in as the pair of descriptor
numbers, or none. -/
def pipe2 (flags : Nat) (outcome : Option (Nat × Nat)) : Option PipeEnds :=
  outcome.map (fun p => ⟨p.1, p.2, flags⟩)

/-- Embedding of open_pipe, src/lib/utils.c lines 1273-1281: calls
pipe2 with O_CLOEXEC bitwise-or O_NONBLOCK; returns -1 if pipe2 fails
and 0 otherwise.  The first component is the created pipe (if any),
the second the C return value. -/
def open_pipe (pipe2Outcome : Option (Nat × Nat)) : Option PipeEnds × Int :=
  match pipe2 (O_CLOEXEC ||| O_NONBLOCK) pipe2Outcome with
  | none => (none, -1)
  | some ends => (some ends, 0)

/-- Embedding of open_bfd_pipes, src/keepalived/bfd/bfd_daemon.c lines
119-139 (built with both _WITH_VRRP_ and _WITH_LVS_): opens the BFD
to VRRP event pipe, then the BFD to checker event pipe, returning
false as soon as one open_pipe call reports -1 and true otherwise.
The two pipe2 outcomes are passed in; the second is only consumed when
the first pipe was created. -/
def open_bfd_pipes (o1 o2 : Option (Nat × Nat)) :
    Bool × Option PipeEnds × Option PipeEnds :=
  let r1 := open_pipe o1
  if r1.2 = -1 then (false, r1.1, none)
  else
    let r2 := open_pipe o2
    if r2.2 = -1 then (false, r1.1, r2.1)
    else (true, r1.1, r2.1)

/-! Embedding of memcmp_constant_time, src/lib/utils.c lines 1296-1307.
The two buffers are byte memories; ret is an unsigned char, so the
accumulating assignment truncates modulo 256. -/

def memcmp_step (s1 s2 : Nat → Nat) (ret i : Nat) : Nat :=
  (ret ||| ((s1 i) ^^^ (s2 i))) % 256

/-- Loop of memcmp_constant_time: for i from 0 to n-1, ret |= s1[i] ^ s2[i];
the final ret (an unsigned char) is returned as the int result. -/
def memcmp_constant_time (s1 s2 : Nat → Nat) (n : Nat) : Nat :=
  (List.range n).foldl (memcmp_step s1 s2) 0

/-! Embedding of the two in_csum variants, src/lib/utils.c lines
494-537 (USE_MEMCPY_FOR_ALIASING variant) and lines 539-574 (the
may_alias variant).  Both run on the same little-endian host: a
16-bit word load at byte address p combines bytes p and p+1, and
htons swaps the two bytes of a 16-bit value. -/

def load16le (b : Nat → Nat) (p : Nat) : Nat :=
  (b p % 256) + 256 * (b (p + 1) % 256)

def htons (v : Nat) : Nat :=
  (v % 256) * 256 + (v / 256) % 256

/-- Loop of the memcpy variant: while (nleft > 1) the 16-bit word at
the running byte address is added to csum (a uint32_t), the byte
address advances by 2 and nleft decreases by 2.  Returns the final
(nleft, byte address, csum). -/
def in_csum_memcpy_loop (b : Nat → Nat) : Nat → Nat → Nat → Nat × Nat × Nat
  | 0, pos, csum => (0, pos, csum)
  | 1, pos, csum => (1, pos, csum)
  | nleft + 2, pos, csum =>
      in_csum_memcpy_loop b nleft (pos + 2) ((csum + load16le b pos) % 2 ^ 32)

/-- The USE_MEMCPY_FOR_ALIASING variant of in_csum.  Returns the pair
(16-bit checksum result, value stored through acc when acc is
non-null); the acc store happens before the final folding, exactly as
in the source. -/
def in_csum_memcpy (b : Nat → Nat) (len : Nat) (csum0 : Nat) : Nat × Nat :=
  let r := in_csum_memcpy_loop b len 0 (csum0 % 2 ^ 32)
  let nleft := r.1
  let pos := r.2.1
  let csum1 := r.2.2
  let csum2 :=
    if nleft = 1 then (csum1 + htons ((b pos % 256) * 256 % 2 ^ 16)) % 2 ^ 32
    else csum1
  let f1 := (csum2 >>> 16) + (csum2 &&& 65535)
  let f2 := f1 + (f1 >>> 16)
  ((2 ^ 32 - 1 - f2) &&& 65535, csum2)

/-- Loop of the may_alias variant: the running pointer w is a uint16_t
pointer, so it is modelled as a word index i with the word at byte
address 2*i; while (nleft > 1) the word is added to sum and nleft
decreases by 2.  Returns the final (nleft, word index, sum). -/
def in_csum_alias_loop (b : Nat → Nat) : Nat → Nat → Nat → Nat × Nat × Nat
  | 0, i, sum => (0, i, sum)
  | 1, i, sum => (1, i, sum)
  | nleft + 2, i, sum =>
      in_csum_alias_loop b nleft (i + 1) ((sum + load16le b (2 * i)) % 2 ^ 32)

/-- The may_alias variant of in_csum: sum starts from the csum
argument, the loop walks a uint16_t pointer, the odd tail byte is read
through the current word pointer, and the folding is identical. -/
def in_csum_alias (b : Nat → Nat) (len : Nat) (csum0 : Nat) : Nat × Nat :=
  let r := in_csum_alias_loop b len 0 (csum0 % 2 ^ 32)
  let nleft := r.1
  let i := r.2.1
  let sum1 := r.2.2
  let sum2 :=
    if nleft = 1 then (sum1 + htons ((b (2 * i) % 256) * 256 % 2 ^ 16)) % 2 ^ 32
    else sum1
  let f1 := (sum2 >>> 16) + (sum2 &&& 65535)
  let f2 := f1 + (f1 >>> 16)
  ((2 ^ 32 - 1 - f2) &&& 65535, sum2)

/-! Embedding of strcpy_safe_impl, src/lib/utils.h lines 242-251.
The destination buffer is a byte memory; the source string is given as
its list of bytes up to but not including the terminating NUL, so
strlen(src) is the length of that list and the byte memcpy may read is
src followed by the NUL. -/

/-- strcpy_safe_impl: str_len = strlen(src); memcpy copies str_len+1
bytes when str_len < len and len-1 bytes otherwise; then dst[len-1] is
set to 0.  The result is the destination byte memory after the two
writes. -/
def strcpy_safe_impl (dst : Nat → Nat) (src : List Nat) (len : Nat) : Nat → Nat :=
  let str_len := src.length
  let ncopy := if str_len < len then str_len + 1 else len - 1
  let after_copy : Nat → Nat := fun i =>
    if i < ncopy then (src ++ [0]).getD i 0 else dst i
  fun i => if i = len - 1 then 0 else after_copy i

/-- Reading a NUL-terminated C string out of a byte memory, starting
at address i, giving up after fuel bytes. -/
def cstring (buf : Nat → Nat) : Nat → Nat → List Nat
  | 0, _ => []
  | fuel + 1, i => if buf i = 0 then [] else buf i :: cstring buf fuel (i + 1)

/-! Embedding of set_tmp_dir and make_tmp_filename, src/lib/utils.c
lines 1467-1485.  C strings are modelled as lists of characters (the
bytes before the terminating NUL), so an empty TMPDIR value is the
empty list and its first byte is the NUL, which is not a slash. -/

/-- Modelled from the spec: KA_TMP_DIR is the compiled-in default
directory for runtime files; its definition is generated by configure
and is not part of src.  Its concrete value is irrelevant to the
claims; the conventional default /tmp is used. -/
def KA_TMP_DIR : List Char := ['/', 't', 'm', 'p']

/-- set_tmp_dir: tmp_dir becomes the value of getenv TMPDIR when that
is non-null and its first character is a slash, and KA_TMP_DIR
otherwise (unset, empty, or not starting with a slash). -/
def set_tmp_dir (tmpdirEnv : Option (List Char)) : List Char :=
  match tmpdirEnv with
  | none => KA_TMP_DIR
  | some s =>
    match s with
    | [] => KA_TMP_DIR
    | c :: rest => if c = '/' then c :: rest else KA_TMP_DIR

/-- make_tmp_filename: strcpy(path, tmp_dir), then path[strlen(tmp_dir)]
becomes a slash, then strcpy of file_name just after it. -/
def make_tmp_filename (tmp_dir file_name : List Char) : List Char :=
  tmp_dir ++ '/' :: file_name

/-! Embedding of the BFD child daemon control flow,
src/keepalived/bfd/bfd_daemon.c, built without _ONE_PROCESS_DEBUG_ and
with both _WITH_VRRP_ and _WITH_LVS_. -/

/-- Events placed on the master scheduler queue of the BFD child. -/
inductive BfdEvent
  | dispatcherInit
  | reloadBfd
  | printBfd
  | terminate
  deriving DecidableEq, Repr

/-- The slice of global_data the control flow of bfd_daemon.c reads. -/
structure GlobalConf where
  reloadCheckConfig : Bool
  deriving DecidableEq, Repr

/-- Observable state of the BFD child process.  bfd_data and
global_data are the pointers of the C code, none when NULL; a loaded
BFD configuration is abstracted to a Nat token.  queue is the master
scheduler event queue, logMessages counts log_message calls, and
exited records the status passed to exit once the process has
exited. -/
structure DaemonState where
  bfdData : Option Nat
  globalData : Option GlobalConf
  oldBfdData : Option Nat
  oldGlobalData : Option GlobalConf
  reloadFlag : Bool
  pidfilePresent : Bool
  masterPresent : Bool
  queue : List BfdEvent
  logMessages : Nat
  exited : Option Nat
  deriving DecidableEq, Repr

/-- Modelled from the spec: outcomes of the external collaborators the
BFD daemon calls during initialization (configuration file parsing,
process supervision helpers), which are not part of src:
alloc_bfd_data (allocBfdDataOk, with the parsed session set abstracted
as the token parsedBfdData), alloc_global_data together with init_data
and init_global_data (newGlobalData), get_config_status returning
CONFIG_OK (configStatusOk), pidfile_write (pidfileWriteOk), and the
CONFIG_TEST_BIT of the debug flags (configTestBit). -/
structure BfdEnv where
  allocBfdDataOk : Bool
  parsedBfdData : Nat
  newGlobalData : GlobalConf
  configStatusOk : Bool
  pidfileWriteOk : Bool
  configTestBit : Bool
  deriving DecidableEq, Repr

/-- Modelled from the spec: exit codes.  The constants
KEEPALIVED_EXIT_FATAL and KEEPALIVED_EXIT_CONFIG are defined in
main.h, which is not part of src; the spec documents exit codes
0=clean, 2=config-error, 1=fatal. -/
def KEEPALIVED_EXIT_FATAL : Nat := 1

/-- Modelled from the spec: config-error exit code, see
KEEPALIVED_EXIT_FATAL. -/
def KEEPALIVED_EXIT_CONFIG : Nat := 2

/-- EXIT_SUCCESS of the C library. -/
def EXIT_SUCCESS : Nat := 0

/-- Modelled from the spec: thread_add_event of the scheduler library
(not part of src) appends an event to the master scheduler queue,
which the event loop processes between handler invocations. -/
def thread_add_event (e : BfdEvent) (s : DaemonState) : DaemonState :=
  { s with queue := s.queue ++ [e] }

/-- Modelled from the spec: thread_add_terminate_event of the
scheduler library (not part of src) appends a terminate event to the
master scheduler queue, making the event loop return once it is
processed. -/
def thread_add_terminate_event (s : DaemonState) : DaemonState :=
  { s with queue := s.queue ++ [BfdEvent.terminate] }

/-- Embedding of stop_bfd, src/keepalived/bfd/bfd_daemon.c lines
78-116: under CONFIG_TEST_BIT it returns at once; otherwise it removes
the pidfile, frees global_data and bfd_data, destroys the master
thread, closes logs and calls exit(status). -/
def stop_bfd (env : BfdEnv) (status : Nat) (s : DaemonState) : DaemonState :=
  if env.configTestBit then s
  else
    { s with pidfilePresent := false, globalData := none, bfdData := none,
             masterPresent := false, exited := some status }

/-- Embedding of start_bfd, src/keepalived/bfd/bfd_daemon.c lines
142-203.  On reload a fresh global_data is allocated; if
alloc_bfd_data fails the daemon stops with KEEPALIVED_EXIT_FATAL;
init_data reads the configuration; under CONFIG_TEST_BIT it returns
after parsing; if reload_check_config is set and get_config_status is
not CONFIG_OK the daemon stops with KEEPALIVED_EXIT_CONFIG; otherwise
the bfd_dispatcher_init event is queued (priority and affinity setting
are not observable state here).  The prevGlobalData argument mirrors
the C parameter; its uses (init_global_data, process naming) are
folded into env.newGlobalData. -/
def start_bfd (env : BfdEnv) (prevGlobalData : Option GlobalConf)
    (s : DaemonState) : DaemonState :=
  let s1 := if s.reloadFlag then { s with globalData := some env.newGlobalData } else s
  if env.allocBfdDataOk = false then stop_bfd env KEEPALIVED_EXIT_FATAL s1
  else
    let s2 := { s1 with bfdData := some env.parsedBfdData }
    if env.configTestBit then s2
    else
      let rcc := match s2.globalData with
                 | some g => g.reloadCheckConfig
                 | none => false
      if rcc && !env.configStatusOk then stop_bfd env KEEPALIVED_EXIT_CONFIG s2
      else thread_add_event BfdEvent.dispatcherInit s2

/-- Embedding of reload_bfd_thread, src/keepalived/bfd/bfd_daemon.c
lines 261-311: sets the reload flag, releases the dispatcher and
cleans the master thread queue, moves the live bfd_data and
global_data into old_bfd_data and old_global_data (the pointers are
set to NULL), runs start_bfd with the old global data, then frees the
old data and clears the reload flag.  If start_bfd exited the process
(stop_bfd calls exit, which does not return), nothing after it
runs. -/
def reload_bfd_thread (env : BfdEnv) (s : DaemonState) : DaemonState :=
  let s1 := { s with reloadFlag := true }
  let s2 := { s1 with queue := [] }
  let s3 := { s2 with oldBfdData := s2.bfdData, bfdData := none,
                      oldGlobalData := s2.globalData, globalData := none }
  let s4 := start_bfd env s3.oldGlobalData s3
  if s4.exited.isSome then s4
  else
    let s5 := { s4 with oldBfdData := none, oldGlobalData := none }
    { s5 with reloadFlag := false }

/-- Embedding of sigreload_bfd, src/keepalived/bfd/bfd_daemon.c lines
219-224: queues a reload_bfd_thread event on the master scheduler. -/
def sigreload_bfd (s : DaemonState) : DaemonState :=
  thread_add_event BfdEvent.reloadBfd s

/-- Embedding of sigdump_bfd, src/keepalived/bfd/bfd_daemon.c lines
226-232: logs one message and queues a print_bfd_thread event on the
master scheduler. -/
def sigdump_bfd (s : DaemonState) : DaemonState :=
  thread_add_event BfdEvent.printBfd { s with logMessages := s.logMessages + 1 }

/-- Embedding of sigend_bfd, src/keepalived/bfd/bfd_daemon.c lines
234-241: if master is non-null, queues a terminate event on it;
otherwise does nothing. -/
def sigend_bfd (s : DaemonState) : DaemonState :=
  if s.masterPresent then thread_add_terminate_event s else s

/-- Handler tags for the signal disposition table. -/
inductive BfdHandlerTag
  | sigreload
  | sigend
  | sigdump
  deriving DecidableEq, Repr

/-- The handler function each tag denotes. -/
def bfd_handler (t : BfdHandlerTag) : DaemonState → DaemonState :=
  match t with
  | BfdHandlerTag.sigreload => sigreload_bfd
  | BfdHandlerTag.sigend => sigend_bfd
  | BfdHandlerTag.sigdump => sigdump_bfd

/-- Disposition of a signal after bfd_signal_init. -/
inductive SigDisp
  | install (t : BfdHandlerTag)
  | ignored
  | dfl
  deriving DecidableEq, Repr

def SIGHUP : Nat := 1

def SIGINT : Nat := 2

def SIGUSR1 : Nat := 10

def SIGPIPE : Nat := 13

def SIGTERM : Nat := 15

/-- Modelled from the spec: signal_set of the signal library (not part
of src) installs a handler for one signal, leaving the others
unchanged. -/
def signal_set (sig : Nat) (t : BfdHandlerTag) (m : Nat → SigDisp) : Nat → SigDisp :=
  fun x => if x = sig then SigDisp.install t else m x

/-- Modelled from the spec: signal_ignore of the signal library (not
part of src) sets one signal to be ignored, leaving the others
unchanged. -/
def signal_ignore (sig : Nat) (m : Nat → SigDisp) : Nat → SigDisp :=
  fun x => if x = sig then SigDisp.ignored else m x

/-- Embedding of bfd_signal_init, src/keepalived/bfd/bfd_daemon.c
lines 244-258 (without THREAD_DUMP): SIGHUP gets sigreload_bfd; SIGINT
is ignored when ignore_sigint is set and gets sigend_bfd otherwise;
SIGTERM gets sigend_bfd; SIGUSR1 gets sigdump_bfd; SIGPIPE is
ignored.  The calls are applied in source order to the prior
disposition table m0. -/
def bfd_signal_init (ignoreSigint : Bool) (m0 : Nat → SigDisp) : Nat → SigDisp :=
  signal_ignore SIGPIPE
    (signal_set SIGUSR1 BfdHandlerTag.sigdump
      (signal_set SIGTERM BfdHandlerTag.sigend
        ((if ignoreSigint then signal_ignore SIGINT
          else signal_set SIGINT BfdHandlerTag.sigend)
          (signal_set SIGHUP BfdHandlerTag.sigreload m0))))

/-- Modelled from the spec: the master scheduler event loop (scheduler
library, not part of src) processes queued events one at a time, in
order, between handler invocations; a terminate event makes the loop
return; a reload event runs reload_bfd_thread; a print event runs
print_bfd_thread, which dumps the BFD data to the log; after exit
nothing runs. -/
def run_scheduler (env : BfdEnv) : List BfdEvent → DaemonState → DaemonState
  | [], s => s
  | e :: rest, s =>
    if s.exited.isSome then s
    else match e with
      | BfdEvent.terminate => s
      | BfdEvent.reloadBfd => run_scheduler env rest (reload_bfd_thread env s)
      | BfdEvent.printBfd =>
          run_scheduler env rest { s with logMessages := s.logMessages + 1 }
      | BfdEvent.dispatcherInit => run_scheduler env rest s

/-- Embedding of the child branch (pid = 0) of start_bfd_child,
src/keepalived/bfd/bfd_daemon.c lines 402-539: after the fork
housekeeping (prctl, pipe read-end closes, syslog, config file
separation), if pidfile_write fails the child logs one message and
calls exit(0); otherwise a new master thread is made, the reload flag
is cleared, signals are initialised, start_bfd runs (and may exit the
process), launch_thread_scheduler runs the event loop over the given
trace of events, and once the loop returns the child stops cleanly
with stop_bfd(EXIT_SUCCESS). -/
def start_bfd_child (env : BfdEnv) (events : List BfdEvent)
    (s : DaemonState) : DaemonState :=
  if env.pidfileWriteOk = false then
    { s with logMessages := s.logMessages + 1, exited := some 0 }
  else
    let s1 := { s with masterPresent := true }
    let s2 := { s1 with reloadFlag := false }
    let s3 := start_bfd env none s2
    if s3.exited.isSome then s3
    else
      let s4 := run_scheduler env events s3
      if s4.exited.isSome then s4
      else stop_bfd env EXIT_SUCCESS s4

/-- The file descriptor pairs of the two BFD event pipes:
bfd_vrrp_event_pipe and bfd_checker_event_pipe. -/
structure EventPipes where
  vrrpRead : Nat
  vrrpWrite : Nat
  checkerRead : Nat
  checkerWrite : Nat
  deriving DecidableEq, Repr

/-- Closing one descriptor in a set of open descriptors. -/
def close_fd (fd : Nat) (openFds : List Nat) : List Nat :=
  openFds.filter (fun x => x != fd)

/-- Embedding of the pipe read-end closes of the child branch of
start_bfd_child, src/keepalived/bfd/bfd_daemon.c lines 419-428:
close(bfd_vrrp_event_pipe[0]) then close(bfd_checker_event_pipe[0]).
These run before start_bfd (line 508) starts the BFD engine. -/
def bfd_child_close_pipe_read_ends (p : EventPipes) (openFds : List Nat) : List Nat :=
  close_fd p.checkerRead (close_fd p.vrrpRead openFds)

/-! Helper lemmas. -/

lemma or_eq_zero_iff_both (a b : Nat) : a ||| b = 0 ↔ a = 0 ∧ b = 0 := by
  constructor
  · intro h
    have hbit : ∀ i, a.testBit i = false ∧ b.testBit i = false := by
      intro i
      have h2 := congrArg (fun n => Nat.testBit n i) h
      simp only [Nat.testBit_or, Nat.zero_testBit, Bool.or_eq_false_iff] at h2
      exact h2
    exact ⟨Nat.zero_of_testBit_eq_false (fun i => (hbit i).1),
           Nat.zero_of_testBit_eq_false (fun i => (hbit i).2)⟩
  · rintro ⟨rfl, rfl⟩
    rfl

lemma memcmp_fold_lt (s1 s2 : Nat → Nat) :
    ∀ (l : List Nat) (r : Nat), r < 256 → l.foldl (memcmp_step s1 s2) r < 256 := by
  intro l
  induction l with
  | nil => intro r hr; simpa using hr
  | cons i t ih =>
      intro r _
      have : memcmp_step s1 s2 r i < 256 := Nat.mod_lt _ (by omega)
      simpa using ih _ this

lemma memcmp_fold_zero_iff (s1 s2 : Nat → Nat) (n : Nat)
    (h1 : ∀ i, i < n → s1 i < 256) (h2 : ∀ i, i < n → s2 i < 256) :
    ∀ r, r < 256 →
      ((List.range n).foldl (memcmp_step s1 s2) r = 0 ↔
        r = 0 ∧ ∀ i, i < n → s1 i = s2 i) := by
  induction n with
  | zero =>
      intro r _
      simp
  | succ n ih =>
      intro r hr
      have h1n : ∀ i, i < n → s1 i < 256 := fun i hi => h1 i (by omega)
      have h2n : ∀ i, i < n → s2 i < 256 := fun i hi => h2 i (by omega)
      have hR : (List.range n).foldl (memcmp_step s1 s2) r < 256 :=
        memcmp_fold_lt s1 s2 _ r hr
      have hx : s1 n ^^^ s2 n < 256 := by
        have e : (256 : Nat) = 2 ^ 8 := by norm_num
        rw [e]
        exact Nat.xor_lt_two_pow (e ▸ h1 n (by omega)) (e ▸ h2 n (by omega))
      have hor : (List.range n).foldl (memcmp_step s1 s2) r ||| (s1 n ^^^ s2 n) < 256 := by
        have e : (256 : Nat) = 2 ^ 8 := by norm_num
        rw [e]
        exact Nat.or_lt_two_pow (e ▸ hR) (e ▸ hx)
      rw [List.range_succ, List.foldl_append]
      simp only [List.foldl_cons, List.foldl_nil, memcmp_step]
      rw [Nat.mod_eq_of_lt hor, or_eq_zero_iff_both, ih h1n h2n r hr, Nat.xor_eq_zero]
      constructor
      · rintro ⟨⟨hr0, hlt⟩, hn⟩
        refine ⟨hr0, fun i hi => ?_⟩
        rcases Nat.lt_succ_iff_lt_or_eq.mp hi with hlt2 | rfl
        · exact hlt i hlt2
        · exact hn
      · rintro ⟨hr0, hall⟩
        exact ⟨⟨hr0, fun i hi => hall i (by omega)⟩, hall n (by omega)⟩

/-- Claim C3: every event pipe created by open_pipe carries both
O_NONBLOCK and O_CLOEXEC on its descriptors (so writes are nonblocking
and a full pipe yields EAGAIN rather than blocking), open_pipe returns
-1 exactly when pipe2 fails and 0 otherwise, and open_bfd_pipes
succeeds exactly when both pipe2 calls succeed. -/
theorem open_pipe_nonblock_cloexec_c3 :
    ∀ (p : Nat × Nat) (o1 o2 : Option (Nat × Nat)),
      open_pipe none = (none, -1)
      ∧ open_pipe (some p) = (some ⟨p.1, p.2, O_CLOEXEC ||| O_NONBLOCK⟩, 0)
      ∧ (O_CLOEXEC ||| O_NONBLOCK) &&& O_NONBLOCK = O_NONBLOCK
      ∧ (O_CLOEXEC ||| O_NONBLOCK) &&& O_CLOEXEC = O_CLOEXEC
      ∧ ((open_bfd_pipes o1 o2).1 = true ↔ o1.isSome = true ∧ o2.isSome = true) := by
  intro p o1 o2
  refine ⟨rfl, rfl, by decide, by decide, ?_⟩
  cases o1 <;> cases o2 <;>
    simp [open_bfd_pipes, open_pipe, pipe2]

/-- Claim C7: set_tmp_dir takes the TMPDIR environment value whenever
it is set and begins with a slash, and the compiled-in default
KA_TMP_DIR otherwise (unset, empty, or relative), and
make_tmp_filename is exactly the concatenation of tmp_dir, a slash,
and the file name. -/
theorem tmp_dir_placement_c7 :
    ∀ (c : Char) (s t f : List Char),
      set_tmp_dir none = KA_TMP_DIR
      ∧ set_tmp_dir (some []) = KA_TMP_DIR
      ∧ set_tmp_dir (some (c :: s)) = (if c = '/' then c :: s else KA_TMP_DIR)
      ∧ make_tmp_filename t f = t ++ ['/'] ++ f := by
  intro c s t f
  refine ⟨rfl, rfl, rfl, ?_⟩
  simp [make_tmp_filename]

/-- Claim C8: memcmp_constant_time returns 0 if and only if the first
n bytes of the two buffers agree pairwise; in particular it returns 0
when n is 0. -/
theorem memcmp_constant_time_zero_iff_c8 (s1 s2 : Nat → Nat) (n : Nat)
    (h1 : ∀ i, i < n → s1 i < 256) (h2 : ∀ i, i < n → s2 i < 256) :
    (memcmp_constant_time s1 s2 n = 0 ↔ ∀ i, i < n → s1 i = s2 i) := by
  unfold memcmp_constant_time
  rw [memcmp_fold_zero_iff s1 s2 n h1 h2 0 (by omega)]
  simp

/-- Witness for claim C8 at concrete three-byte buffers. -/
theorem memcmp_constant_time_zero_iff_c8_witness :
    memcmp_constant_time (fun i => [3, 4, 5].getD i 0) (fun i => [3, 4, 5].getD i 0) 3 = 0 := by
  have h := memcmp_constant_time_zero_iff_c8
    (fun i => [3, 4, 5].getD i 0) (fun i => [3, 4, 5].getD i 0) 3
    (by decide) (by decide)
  refine h.mpr ?_
  decide

lemma in_csum_loops_agree (b : Nat → Nat) :
    ∀ (nleft i csum : Nat),
      in_csum_memcpy_loop b nleft (2 * i) csum =
        ((in_csum_alias_loop b nleft i csum).1,
         2 * (in_csum_alias_loop b nleft i csum).2.1,
         (in_csum_alias_loop b nleft i csum).2.2) := by
  intro nleft
  induction nleft using Nat.strong_induction_on with
  | _ n ih =>
    intro i csum
    match n with
    | 0 => rfl
    | 1 => rfl
    | k + 2 =>
      have h2 : 2 * i + 2 = 2 * (i + 1) := by ring
      simp only [in_csum_memcpy_loop, in_csum_alias_loop]
      rw [h2]
      exact ih k (by omega) (i + 1) _

/-- Claim C9: the two conditionally compiled in_csum variants compute
the same function: for every buffer, length and initial csum they
return the same 16-bit checksum and store the same accumulator
value. -/
theorem in_csum_variants_agree_c9 :
    ∀ (b : Nat → Nat) (len csum0 : Nat),
      in_csum_memcpy b len csum0 = in_csum_alias b len csum0 := by
  intro b len csum0
  unfold in_csum_memcpy in_csum_alias
  have h := in_csum_loops_agree b len 0 (csum0 % 2 ^ 32)
  rw [show (0 : Nat) = 2 * 0 from rfl] at h ⊢
  rw [h]

lemma cstring_of_matches (xs : List Nat) :
    ∀ (buf : Nat → Nat) (fuel i : Nat),
      (∀ j, j < xs.length → buf (i + j) = xs.getD j 0) →
      (∀ x ∈ xs, x ≠ 0) →
      buf (i + xs.length) = 0 →
      xs.length < fuel →
      cstring buf fuel i = xs := by
  induction xs with
  | nil =>
      intro buf fuel i _ _ hz hf
      match fuel, hf with
      | m + 1, _ =>
        simp only [List.length_nil, Nat.add_zero] at hz
        simp [cstring, hz]
  | cons x rest ih =>
      intro buf fuel i hm hnz hz hf
      match fuel, hf with
      | m + 1, hf =>
        have hx : buf i = x := by
          have := hm 0 (by simp)
          simpa using this
        have hxne : x ≠ 0 := hnz x (by simp)
        have hrest : cstring buf m (i + 1) = rest := by
          apply ih
          · intro j hj
            have := hm (j + 1) (by simp; omega)
            simpa [Nat.add_comm, Nat.add_assoc, Nat.add_left_comm] using this
          · exact fun y hy => hnz y (by simp [hy])
          · have : i + 1 + rest.length = i + (x :: rest).length := by
              simp [Nat.add_comm, Nat.add_assoc, Nat.add_left_comm]
            rw [this]
            exact hz
          · have : (x :: rest).length = rest.length + 1 := by simp
            omega
        simp [cstring, hx, hxne, hrest]

/-- Claim C10: for capacity len at least 1 and a NUL-terminated source
with no interior NUL byte, strcpy_safe_impl writes only within the
first len bytes of dst, always leaves dst[len-1] reachable as a NUL
terminator, and the resulting C string equals src when strlen(src) is
below len and the first len-1 bytes of src otherwise. -/
theorem strcpy_safe_impl_spec_c10 (dst : Nat → Nat) (src : List Nat) (len : Nat)
    (hlen : 1 ≤ len) (hsrc : ∀ x ∈ src, x ≠ 0) :
    (∀ i, len ≤ i → strcpy_safe_impl dst src len i = dst i)
    ∧ strcpy_safe_impl dst src len (len - 1) = 0
    ∧ cstring (strcpy_safe_impl dst src len) len 0 =
        (if src.length < len then src else src.take (len - 1)) := by
  refine ⟨?_, ?_, ?_⟩
  · intro i hi
    simp only [strcpy_safe_impl]
    have h1 : ¬(i = len - 1) := by omega
    have h2 : ¬(i < src.length + 1) ∨ True := Or.inr trivial
    by_cases hc : src.length < len
    · simp only [hc, if_true, if_neg h1]
      have : ¬(i < src.length + 1) := by omega
      simp [this]
    · simp only [hc, if_false, if_neg h1]
      have : ¬(i < len - 1) := by omega
      simp [this]
  · simp [strcpy_safe_impl]
  · by_cases hc : src.length < len
    · rw [if_pos hc]
      apply cstring_of_matches src _ len 0
      · intro j hj
        simp only [strcpy_safe_impl, Nat.zero_add]
        have h1 : ¬(j = len - 1) := by omega
        rw [if_neg h1, if_pos hc, if_pos (by omega : j < src.length + 1)]
        exact List.getD_append _ _ _ _ hj
      · exact hsrc
      · simp only [strcpy_safe_impl, Nat.zero_add]
        by_cases he : src.length = len - 1
        · rw [if_pos he]
        · rw [if_neg he, if_pos hc, if_pos (by omega : src.length < src.length + 1)]
          have : (src ++ [0]).getD src.length 0 = 0 := by
            rw [List.getD_eq_getD_get?]
            rw [List.get?_concat_length]
            rfl
          exact this
      · exact hc
    · rw [if_neg hc]
      have htk : (src.take (len - 1)).length = len - 1 := by
        simp
        omega
      apply cstring_of_matches _ _ len 0
      · intro j hj
        rw [htk] at hj
        simp only [strcpy_safe_impl, Nat.zero_add]
        have h1 : ¬(j = len - 1) := by omega
        rw [if_neg h1, if_neg hc, if_pos hj]
        have hjs : j < src.length := by omega
        rw [List.getD_append _ _ _ _ hjs]
        rw [List.getD_eq_getD_get?, List.getD_eq_getD_get?]
        rw [List.get?_take (by omega : j < len - 1)]
      · exact fun y hy => hsrc y (List.mem_of_mem_take hy)
      · rw [htk]
        simp [strcpy_safe_impl]
      · omega

/-- Witness for claim C10: copying the two-byte string (72, 105) into
a four-byte buffer previously filled with 55. -/
theorem strcpy_safe_impl_spec_c10_witness :
    cstring (strcpy_safe_impl (fun _ => 55) [72, 105] 4) 4 0 = [72, 105]
    ∧ strcpy_safe_impl (fun _ => 55) [72, 105] 4 3 = 0
    ∧ strcpy_safe_impl (fun _ => 55) [72, 105] 4 9 = 55 := by
  have h := strcpy_safe_impl_spec_c10 (fun _ => 55) [72, 105] 4 (by omega) (by decide)
  refine ⟨?_, ?_, ?_⟩
  · have h3 := h.2.2
    simpa using h3
  · exact h.2.1
  · exact h.1 9 (by omega)

/-- Counterexample for claim C1: on a reload whose new configuration
is bad (get_config_status not CONFIG_OK, reload_check_config set), the
previously live configuration does not persist: reload_bfd_thread
frees the live bfd_data and global_data pointers and the process exits
with KEEPALIVED_EXIT_CONFIG, so the claim as stated is false at this
input. -/
theorem reload_keeps_old_config_c1_counterexample :
    let env : BfdEnv := ⟨true, 7, ⟨true⟩, false, true, false⟩
    let s : DaemonState := ⟨some 3, some ⟨true⟩, none, none, false, true, true, [], 0, none⟩
    (reload_bfd_thread env s).exited = some KEEPALIVED_EXIT_CONFIG
    ∧ (reload_bfd_thread env s).bfdData = none
    ∧ (reload_bfd_thread env s).globalData = none
    ∧ s.bfdData = some 3
    ∧ ¬((reload_bfd_thread env s).bfdData = s.bfdData
        ∧ (reload_bfd_thread env s).exited = none) := by
  decide

/-- Claim C1 as amended: if the configuration read during a reload
contains an error (get_config_status is not CONFIG_OK) and
reload_check_config is enabled, the BFD child rejects the new
configuration by exiting with KEEPALIVED_EXIT_CONFIG; the previously
live configuration does not persist (both the old and the new
bfd_data and global_data are gone when the process exits), and the
failure is reported to the supervisor through the child's nonzero
exit status. -/
theorem reload_config_error_exits_c1 (env : BfdEnv) (s : DaemonState)
    (hcheck : env.newGlobalData.reloadCheckConfig = true)
    (hstatus : env.configStatusOk = false)
    (halloc : env.allocBfdDataOk = true)
    (htest : env.configTestBit = false) :
    (reload_bfd_thread env s).exited = some KEEPALIVED_EXIT_CONFIG
    ∧ (reload_bfd_thread env s).bfdData = none
    ∧ (reload_bfd_thread env s).globalData = none := by
  simp [reload_bfd_thread, start_bfd, stop_bfd, thread_add_event,
        halloc, htest, hcheck, hstatus]

/-- Witness for claim C1 as amended, at the concrete reload
counterexample input. -/
theorem reload_config_error_exits_c1_witness :
    (reload_bfd_thread (⟨true, 7, ⟨true⟩, false, true, false⟩ : BfdEnv)
        (⟨some 3, some ⟨true⟩, none, none, false, true, true, [], 0, none⟩ : DaemonState)).exited
      = some KEEPALIVED_EXIT_CONFIG :=
  (reload_config_error_exits_c1
    (⟨true, 7, ⟨true⟩, false, true, false⟩ : BfdEnv)
    (⟨some 3, some ⟨true⟩, none, none, false, true, true, [], 0, none⟩ : DaemonState)
    rfl rfl rfl rfl).1

/-- Claim C2, evaluated on the code: the BFD child exits 0 on a clean
stop (terminate event), KEEPALIVED_EXIT_CONFIG = 2 on a configuration
error, and KEEPALIVED_EXIT_FATAL = 1 when alloc_bfd_data fails — but
when pidfile_write fails the child calls exit(0) (despite the Fatal
error comment in the source), so a failed initialization is reported
with the clean status 0, contradicting the claim that status 0 occurs
only on a clean stop. -/
theorem bfd_child_exit_codes_c2 :
    let fresh : DaemonState := ⟨none, some ⟨false⟩, none, none, false, true, false, [], 0, none⟩
    let freshCheck : DaemonState := ⟨none, some ⟨true⟩, none, none, false, true, false, [], 0, none⟩
    (start_bfd_child ⟨true, 7, ⟨false⟩, true, false, false⟩ [] fresh).exited = some 0
    ∧ (start_bfd_child ⟨false, 7, ⟨false⟩, true, true, false⟩ [] fresh).exited
        = some KEEPALIVED_EXIT_FATAL
    ∧ (start_bfd_child ⟨true, 7, ⟨true⟩, false, true, false⟩ [] freshCheck).exited
        = some KEEPALIVED_EXIT_CONFIG
    ∧ (start_bfd_child ⟨true, 7, ⟨false⟩, true, true, false⟩
        [BfdEvent.dispatcherInit, BfdEvent.terminate] fresh).exited = some EXIT_SUCCESS
    ∧ EXIT_SUCCESS = 0 := by
  decide

/-- Claim C4: none of the BFD child's signal handlers mutates daemon
state directly: sigreload_bfd, sigdump_bfd and sigend_bfd leave
bfd_data, global_data, the pidfile, the reload flag and the exit
status untouched and only append their event to the master scheduler
queue (sigend_bfd appends nothing when master is null; sigdump_bfd
also writes one log message). -/
theorem signal_handlers_only_enqueue_c4 (s : DaemonState) :
    (sigreload_bfd s).bfdData = s.bfdData
    ∧ (sigreload_bfd s).globalData = s.globalData
    ∧ (sigreload_bfd s).exited = s.exited
    ∧ (sigreload_bfd s).pidfilePresent = s.pidfilePresent
    ∧ (sigreload_bfd s).reloadFlag = s.reloadFlag
    ∧ (sigreload_bfd s).queue = s.queue ++ [BfdEvent.reloadBfd]
    ∧ (sigdump_bfd s).bfdData = s.bfdData
    ∧ (sigdump_bfd s).globalData = s.globalData
    ∧ (sigdump_bfd s).exited = s.exited
    ∧ (sigdump_bfd s).pidfilePresent = s.pidfilePresent
    ∧ (sigdump_bfd s).reloadFlag = s.reloadFlag
    ∧ (sigdump_bfd s).queue = s.queue ++ [BfdEvent.printBfd]
    ∧ (sigend_bfd s).bfdData = s.bfdData
    ∧ (sigend_bfd s).globalData = s.globalData
    ∧ (sigend_bfd s).exited = s.exited
    ∧ (sigend_bfd s).pidfilePresent = s.pidfilePresent
    ∧ (sigend_bfd s).reloadFlag = s.reloadFlag
    ∧ (sigend_bfd s).queue
        = s.queue ++ (if s.masterPresent then [BfdEvent.terminate] else []) := by
  unfold sigreload_bfd sigdump_bfd sigend_bfd thread_add_event thread_add_terminate_event
  by_cases h : s.masterPresent <;> simp [h]

/-- Claim C5: bfd_signal_init installs exactly the documented mapping:
SIGHUP runs sigreload_bfd (which queues the reload event the scheduler
processes via reload_bfd_thread), SIGTERM runs sigend_bfd (and SIGINT
does too when not ignored) which queues a terminate event, SIGUSR1
runs sigdump_bfd which queues the BFD data dump to the log, and
SIGPIPE is ignored. -/
theorem bfd_signal_mapping_c5 (b : Bool) (m0 : Nat → SigDisp) (s : DaemonState)
    (env : BfdEnv) (rest : List BfdEvent) :
    bfd_signal_init b m0 SIGHUP = SigDisp.install BfdHandlerTag.sigreload
    ∧ bfd_signal_init b m0 SIGTERM = SigDisp.install BfdHandlerTag.sigend
    ∧ bfd_signal_init b m0 SIGINT
        = (if b then SigDisp.ignored else SigDisp.install BfdHandlerTag.sigend)
    ∧ bfd_signal_init b m0 SIGUSR1 = SigDisp.install BfdHandlerTag.sigdump
    ∧ bfd_signal_init b m0 SIGPIPE = SigDisp.ignored
    ∧ (bfd_handler BfdHandlerTag.sigreload s).queue = s.queue ++ [BfdEvent.reloadBfd]
    ∧ (bfd_handler BfdHandlerTag.sigend s).queue
        = s.queue ++ (if s.masterPresent then [BfdEvent.terminate] else [])
    ∧ (bfd_handler BfdHandlerTag.sigdump s).queue = s.queue ++ [BfdEvent.printBfd]
    ∧ run_scheduler env (BfdEvent.reloadBfd :: rest) s
        = (if s.exited.isSome then s
           else run_scheduler env rest (reload_bfd_thread env s)) := by
  refine ⟨?_, ?_, ?_, ?_, ?_, ?_, ?_, ?_, ?_⟩
  · cases b <;> rfl
  · cases b <;> rfl
  · cases b <;> rfl
  · cases b <;> rfl
  · cases b <;> rfl
  · simp [bfd_handler, sigreload_bfd, thread_add_event]
  · unfold bfd_handler sigend_bfd thread_add_terminate_event
    by_cases h : s.masterPresent <;> simp [h]
  · simp [bfd_handler, sigdump_bfd, thread_add_event]
  · by_cases h : s.exited.isSome <;> simp [run_scheduler, h]

/-- Claim C6: in the child forked by start_bfd_child the read ends of
both event pipes are closed before start_bfd starts the BFD engine, so
the child keeps only the write ends of the two event pipes. -/
theorem child_closes_pipe_read_ends_c6 (p : EventPipes) (openFds : List Nat)
    (h1 : p.vrrpRead ≠ p.vrrpWrite) (h2 : p.vrrpRead ≠ p.checkerWrite)
    (h3 : p.checkerRead ≠ p.vrrpWrite) (h4 : p.checkerRead ≠ p.checkerWrite)
    (hvw : p.vrrpWrite ∈ openFds) (hcw : p.checkerWrite ∈ openFds) :
    p.vrrpRead ∉ bfd_child_close_pipe_read_ends p openFds
    ∧ p.checkerRead ∉ bfd_child_close_pipe_read_ends p openFds
    ∧ p.vrrpWrite ∈ bfd_child_close_pipe_read_ends p openFds
    ∧ p.checkerWrite ∈ bfd_child_close_pipe_read_ends p openFds := by
  unfold bfd_child_close_pipe_read_ends close_fd
  refine ⟨?_, ?_, ?_, ?_⟩
  · intro h
    have hin := List.mem_of_mem_filter h
    have hne := (List.mem_filter.mp hin).2
    simp at hne
  · intro h
    have hne := (List.mem_filter.mp h).2
    simp at hne
  · apply List.mem_filter.mpr
    refine ⟨List.mem_filter.mpr ⟨hvw, ?_⟩, ?_⟩
    · simp only [bne_iff_ne, ne_eq]
      exact fun he => h1 he.symm
    · simp only [bne_iff_ne, ne_eq]
      exact fun he => h3 he.symm
  · apply List.mem_filter.mpr
    refine ⟨List.mem_filter.mpr ⟨hcw, ?_⟩, ?_⟩
    · simp only [bne_iff_ne, ne_eq]
      exact fun he => h2 he.symm
    · simp only [bne_iff_ne, ne_eq]
      exact fun he => h4 he.symm

/-- Witness for claim C6: pipes with descriptors 5, 6 (vrrp) and 7, 8
(checker), all four open before the fork. -/
theorem child_closes_pipe_read_ends_c6_witness :
    (5 : Nat) ∉ bfd_child_close_pipe_read_ends ⟨5, 6, 7, 8⟩ [5, 6, 7, 8]
    ∧ (7 : Nat) ∉ bfd_child_close_pipe_read_ends ⟨5, 6, 7, 8⟩ [5, 6, 7, 8]
    ∧ (6 : Nat) ∈ bfd_child_close_pipe_read_ends ⟨5, 6, 7, 8⟩ [5, 6, 7, 8]
    ∧ (8 : Nat) ∈ bfd_child_close_pipe_read_ends ⟨5, 6, 7, 8⟩ [5, 6, 7, 8] :=
  child_closes_pipe_read_ends_c6 ⟨5, 6, 7, 8⟩ [5, 6, 7, 8]
    (by decide) (by decide) (by decide) (by decide) (by decide) (by decide)

end Keepalived
